import Mathlib

/-!
Shallow embedding of the liveness-tracking / status-aggregation engine of
`tools/can_nt_bridge.py` and `tools/can_nt_bridge.backup.py`.

Timestamps, durations and timeouts (Python floats) are modelled as rationals;
Python dictionaries (`last_seen`, `msg_count`) are modelled as total functions
into `Option` / `Nat`, with `dict.get k` as application and `dict[k] = v` as a
pointwise update.
-/

/-- Freshness state produced by `_format_status` ("OK" / "STALE" / "MISSING"). -/
inductive Status where
  | OK
  | STALE
  | MISSING
deriving DecidableEq, Repr

/-- `_format_status(ts, now, timeout)` from both scripts: returns the triple
`(status, age, is_missing)`; `None` timestamp gives `("MISSING", None, True)`,
otherwise `age = now - ts`, strict `age > timeout` gives `("STALE", age, True)`,
else `("OK", age, False)`. -/
def format_status (ts : Option ℚ) (now timeout : ℚ) : Status × Option ℚ × Bool :=
  match ts with
  | none => (Status.MISSING, none, true)
  | some t =>
      let age := now - t
      if age > timeout then (Status.STALE, some age, true)
      else (Status.OK, some age, false)

/-- `_decode_ext_id(arb_id)` from `can_nt_bridge.backup.py`: extracts
`(manufacturer, device_type, api_class, api_index, device_id)` from the raw
29-bit extended identifier by the fixed FRC bit layout. -/
def decode_ext_id (arb_id : ℕ) : ℕ × ℕ × ℕ × ℕ × ℕ :=
  let device_type := (arb_id >>> 24) &&& 0x1F
  let manufacturer := (arb_id >>> 16) &&& 0xFF
  let api_class := (arb_id >>> 10) &&& 0x3F
  let api_index := (arb_id >>> 6) &&& 0x0F
  let device_id := arb_id &&& 0x3F
  (manufacturer, device_type, api_class, api_index, device_id)

/-- `_device_id_from_arb_id(arb_id)` from both scripts (legacy decode mode). -/
def device_id_from_arb_id (arb_id : ℕ) : ℕ :=
  arb_id &&& 0x3F

/-- C1: the status classifier returns `(MISSING, none)` on no record; on a
record with `lastSeenAt ≤ now` it computes `age = now - lastSeenAt` and
returns `(STALE, age)` exactly when `age > timeout`, `(OK, age)` otherwise;
at the boundary `age = timeout` it returns `OK`. -/
theorem C1_classifier_boundary (now timeout : ℚ) :
    (format_status none now timeout).1 = Status.MISSING ∧
    (format_status none now timeout).2.1 = none ∧
    (∀ t : ℚ, t ≤ now →
      (format_status (some t) now timeout).2.1 = some (now - t) ∧
      ((format_status (some t) now timeout).1 = Status.STALE ↔ now - t > timeout) ∧
      ((format_status (some t) now timeout).1 = Status.OK ↔ ¬ now - t > timeout)) ∧
    (∀ t : ℚ, t ≤ now → now - t = timeout →
      (format_status (some t) now timeout).1 = Status.OK) := by
  refine ⟨rfl, rfl, ?_, ?_⟩
  · intro t _
    by_cases h : now - t > timeout
    · simp [format_status, h]
    · simp [format_status, h]
  · intro t _ hb
    simp [format_status, hb]

/-- Witness for C1 at `now = 5`, `timeout = 2`, `t = 3` (boundary age = timeout). -/
theorem C1_classifier_boundary_witness :
    (format_status (some 3) 5 2).1 = Status.OK :=
  (C1_classifier_boundary 5 2).2.2.2 3 (by norm_num) (by norm_num)

/-- C2 counterexample: decoding `0x05_02_00_0A` with `_decode_ext_id` yields
manufacturer = 2 and deviceType = 5 (the bits at 16–23 are `0x02` and the bits
at 24–28 are `0x05`), not manufacturer = 5, deviceType = 2 as claimed. -/
theorem C2_decode_counterexample :
    ¬ ((decode_ext_id 0x0502000A).1 = 5 ∧
       (decode_ext_id 0x0502000A).2.1 = 2 ∧
       (decode_ext_id 0x0502000A).2.2.2.2 = 10) := by
  decide

/-- C2 amended: decoding the raw extended identifier `0x05_02_00_0A` with the
full bit layout (deviceType = bits 24–28, manufacturer = bits 16–23,
deviceId = bits 0–5) yields manufacturer = 2, deviceType = 5, deviceId = 10
(and apiClass = 0, apiIndex = 0); the identifier whose decoding yields
manufacturer = 5, deviceType = 2, deviceId = 10 is `0x02_05_00_0A`. -/
theorem C2_decode_amended :
    decode_ext_id 0x0502000A = (2, 5, 0, 0, 10) ∧
    decode_ext_id 0x0205000A = (5, 2, 0, 0, 10) := by
  decide

/-- C10: the classifier is total on future timestamps — for `lastSeenAt > now`
and `timeout ≥ 0` it returns `(OK, age)` with negative `age = now - lastSeenAt`
(never MISSING, never STALE). -/
theorem C10_future_timestamp_ok (t now timeout : ℚ) (hticks : now < t)
    (htimeout : 0 ≤ timeout) :
    format_status (some t) now timeout =
      (Status.OK, some (now - t), false) ∧ now - t < 0 := by
  have hage : now - t < 0 := by linarith
  have hnot : ¬ now - t > timeout := by linarith
  constructor
  · simp [format_status, hnot]
  · exact hage

/-- Witness for C10 at `t = 7`, `now = 5`, `timeout = 1`. -/
theorem C10_future_timestamp_ok_witness :
    format_status (some 7) 5 1 = (Status.OK, some (5 - 7), false) ∧ (5 : ℚ) - 7 < 0 :=
  C10_future_timestamp_ok 7 5 1 (by norm_num) (by norm_num)

/-- The group-rollup loop shared by `_build_summary_lines` and `_write_csv_row`
in `can_nt_bridge.py`: starting from `seen = 0, missing = 0`, each device id in
the group bumps `missing` when `_format_status`'s `is_missing` flag is set and
`seen` otherwise; returns `(seen, missing)`. -/
def group_rollup (last_seen : ℤ → Option ℚ) (ids : List ℤ) (now timeout : ℚ) :
    ℕ × ℕ :=
  ids.foldl
    (fun acc device_id =>
      if (format_status (last_seen device_id) now timeout).2.2 then (acc.1, acc.2 + 1)
      else (acc.1 + 1, acc.2))
    (0, 0)

theorem group_rollup_loop (f : ℤ → Bool) (ids : List ℤ) (a b : ℕ) :
    ids.foldl
      (fun acc i => if f i then (acc.1, acc.2 + 1) else (acc.1 + 1, acc.2)) (a, b)
      = (a + ids.countP (fun i => !f i), b + ids.countP f) := by
  induction ids generalizing a b with
  | nil => simp
  | cons i is ih =>
    by_cases h : f i = true <;>
      simp [List.foldl_cons, h, ih, List.countP_cons, Prod.ext_iff] <;> omega

theorem countP_not_add_countP (f : ℤ → Bool) (ids : List ℤ) :
    ids.countP (fun i => !f i) + ids.countP f = ids.length := by
  induction ids with
  | nil => simp
  | cons i is ih =>
    by_cases h : f i = true <;> simp [List.countP_cons, h] <;> omega

/-- C3: the group rollup counts a key as missing exactly when its classified
state is STALE or MISSING and as seen otherwise, and `seen + missing = |G|`. -/
theorem C3_group_rollup_partition (last_seen : ℤ → Option ℚ) (ids : List ℤ)
    (now timeout : ℚ) :
    (∀ device_id : ℤ,
      (format_status (last_seen device_id) now timeout).2.2 = true ↔
        ((format_status (last_seen device_id) now timeout).1 = Status.STALE ∨
         (format_status (last_seen device_id) now timeout).1 = Status.MISSING)) ∧
    (group_rollup last_seen ids now timeout).1
      = ids.countP (fun i => !(format_status (last_seen i) now timeout).2.2) ∧
    (group_rollup last_seen ids now timeout).2
      = ids.countP (fun i => (format_status (last_seen i) now timeout).2.2) ∧
    (group_rollup last_seen ids now timeout).1
        + (group_rollup last_seen ids now timeout).2
      = ids.length := by
  refine ⟨?_, ?_⟩
  · intro device_id
    cases hts : last_seen device_id with
    | none => simp [format_status]
    | some t =>
      by_cases h : now - t > timeout
      · simp [format_status, h]
      · simp [format_status, h]
  · have h := group_rollup_loop
      (fun i => (format_status (last_seen i) now timeout).2.2) ids 0 0
    refine ⟨?_, ?_, ?_⟩
    · simpa [group_rollup] using congrArg Prod.fst h
    · simpa [group_rollup] using congrArg Prod.snd h
    · have h1 : (group_rollup last_seen ids now timeout).1
          = ids.countP (fun i => !(format_status (last_seen i) now timeout).2.2) := by
        simpa [group_rollup] using congrArg Prod.fst h
      have h2 : (group_rollup last_seen ids now timeout).2
          = ids.countP (fun i => (format_status (last_seen i) now timeout).2.2) := by
        simpa [group_rollup] using congrArg Prod.snd h
      rw [h1, h2]
      exact countP_not_add_countP _ ids

/-- Publish gate in `main` of `can_nt_bridge.py` (line 584): fires whenever
`now - last_publish >= publish_period` — there is no `> 0` guard. -/
def publish_due (now last_publish publish_period : ℚ) : Bool :=
  decide (now - last_publish ≥ publish_period)

/-- Console summary gate (line 606): `print_summary_period > 0` and elapsed. -/
def summary_due (now last_summary print_summary_period : ℚ) : Bool :=
  decide (print_summary_period > 0) && decide (now - last_summary ≥ print_summary_period)

/-- No-traffic watchdog gate (line 626). -/
def traffic_warn_due (now last_traffic_warn no_traffic_secs : ℚ) : Bool :=
  decide (no_traffic_secs > 0) && decide (now - last_traffic_warn ≥ no_traffic_secs)

/-- Not-connected (RIO) watchdog gate (line 632). -/
def rio_warn_due (now last_rio_warn no_rio_secs : ℚ) : Bool :=
  decide (no_rio_secs > 0) && decide (now - last_rio_warn ≥ no_rio_secs)

/-- CSV-log gate (line 639): a configured path, `log_period > 0`, and elapsed. -/
def log_due (log_csv_enabled : Bool) (now last_log log_period : ℚ) : Bool :=
  log_csv_enabled && (decide (log_period > 0) && decide (now - last_log ≥ log_period))

/-- C4 counterexample: with `publish_period = 0` (claimed to disable publish)
the publish action still fires on a tick with zero elapsed time — the publish
gate has no `period > 0` guard. -/
theorem C4_publish_period_zero_fires :
    (0 : ℚ) ≤ 0 ∧ publish_due 5 5 0 = true := by
  constructor
  · norm_num
  · simp [publish_due]

/-- C4 amended: the summary, CSV-log and both watchdog actions fire exactly
when their period is positive and the elapsed time since their last fire is at
least the period, so a period ≤ 0 disables them (skipped every tick, never a
hard failure); the publish action has no positivity guard: it fires exactly
when elapsed ≥ period, so `publish_period ≤ 0` makes it fire on every tick with
non-negative elapsed time rather than disabling it. -/
theorem C4_timer_gates (now last period : ℚ) (en : Bool) :
    (publish_due now last period = true ↔ now - last ≥ period) ∧
    (summary_due now last period = true ↔ period > 0 ∧ now - last ≥ period) ∧
    (traffic_warn_due now last period = true ↔ period > 0 ∧ now - last ≥ period) ∧
    (rio_warn_due now last period = true ↔ period > 0 ∧ now - last ≥ period) ∧
    (log_due en now last period = true ↔
      en = true ∧ period > 0 ∧ now - last ≥ period) ∧
    (period ≤ 0 →
      summary_due now last period = false ∧
      traffic_warn_due now last period = false ∧
      rio_warn_due now last period = false ∧
      log_due en now last period = false) ∧
    (period ≤ 0 → 0 ≤ now - last → publish_due now last period = true) := by
  refine ⟨?_, ?_, ?_, ?_, ?_, ?_, ?_⟩
  · simp [publish_due]
  · simp [summary_due, and_comm]
  · simp [traffic_warn_due, and_comm]
  · simp [rio_warn_due, and_comm]
  · simp [log_due, and_assoc, and_comm, and_left_comm]
  · intro hp
    have hnp : ¬ period > 0 := by linarith
    simp [summary_due, traffic_warn_due, rio_warn_due, log_due, hnp]
  · intro hp he
    have : now - last ≥ period := by linarith
    simp [publish_due, this]

/-- Witness for C4: at `now = 5`, `last = 0`, `period = 0` the gated actions
are all skipped while publish fires. -/
theorem C4_timer_gates_witness :
    (summary_due 5 0 0 = false ∧ traffic_warn_due 5 0 0 = false ∧
      rio_warn_due 5 0 0 = false ∧ log_due true 5 0 0 = false) ∧
    publish_due 5 5 0 = true := by
  constructor
  · exact (C4_timer_gates 5 0 0 true).2.2.2.2.2.1 (by norm_num)
  · exact (C4_timer_gates 5 5 0 true).2.2.2.2.2.2 (by norm_num) (by norm_num)

/-- Composite device key `(manufacturer, device_type, device_id)` used as the
dictionary key in `can_nt_bridge.backup.py`. -/
abbrev DeviceKey := ℤ × ℤ × ℤ

/-- The mutable per-run state of the main loop that frame processing touches:
the `last_seen` and `msg_count` dictionaries, the global bus error counter,
and the window/total frame counters. -/
structure TrackerState where
  last_seen : DeviceKey → Option ℚ
  msg_count : DeviceKey → ℕ
  bus_error_count : ℕ
  summary_errors : ℕ
  total_frames : ℕ
  summary_frames : ℕ

/-- State at the top of `main`: empty dictionaries, zero counters. -/
def init_state : TrackerState :=
  { last_seen := fun _ => none
    msg_count := fun _ => 0
    bus_error_count := 0
    summary_errors := 0
    total_frames := 0
    summary_frames := 0 }

/-- The data-frame branch of the main loop (backup lines 656–662, same shape
at lines 572–578 of `can_nt_bridge.py`): reads `prev_seen`, computes
`prev_missing = prev_seen is None or (now - prev_seen) > timeout` from the
prior state, then writes `last_seen[key] = now`, bumps `msg_count[key]`,
`total_frames` and `summary_frames`; returns the new state and `prev_missing`. -/
def record_frame (st : TrackerState) (key : DeviceKey) (now timeout : ℚ) :
    TrackerState × Bool :=
  let prev_seen := st.last_seen key
  let prev_missing : Bool :=
    match prev_seen with
    | none => true
    | some t => decide (now - t > timeout)
  ({ st with
      last_seen := fun k => if k = key then some now else st.last_seen k
      msg_count := fun k => if k = key then st.msg_count k + 1 else st.msg_count k
      total_frames := st.total_frames + 1
      summary_frames := st.summary_frames + 1 },
    prev_missing)

/-- The error-frame branch of the main loop (backup lines 649–651, py lines
568–570): bumps `bus_error_count` and `summary_errors` only. -/
def record_error (st : TrackerState) : TrackerState :=
  { st with
      bus_error_count := st.bus_error_count + 1
      summary_errors := st.summary_errors + 1 }

/-- C7: `record_frame`'s recovered signal (`prev_missing`) is true exactly when
the prior state had no record for the key or had age `now - prev_lastSeen >
timeout`; it is computed before `last_seen[key]` is overwritten with `now`. -/
theorem C7_recovered_signal (st : TrackerState) (key : DeviceKey)
    (now timeout : ℚ) :
    ((record_frame st key now timeout).2 = true ↔
      (st.last_seen key = none ∨
        ∃ t, st.last_seen key = some t ∧ now - t > timeout)) ∧
    ((record_frame st key now timeout).1).last_seen key = some now := by
  constructor
  · cases h : st.last_seen key with
    | none => simp [record_frame, h]
    | some t => simp [record_frame, h]
  · simp [record_frame]

/-- C8: an error frame increments only the bus error counter and the window
error counter; every key's `last_seen` and `msg_count` and the total frame
counter are unchanged; and an error frame between two data frames for the
same key leaves that key's count increased by exactly the two data frames
while the bus error counter increases by exactly 1. -/
theorem C8_error_frame_effect (st : TrackerState) (key : DeviceKey)
    (t1 t2 timeout : ℚ) :
    (record_error st).last_seen = st.last_seen ∧
    (record_error st).msg_count = st.msg_count ∧
    (record_error st).total_frames = st.total_frames ∧
    (record_error st).summary_frames = st.summary_frames ∧
    (record_error st).bus_error_count = st.bus_error_count + 1 ∧
    (record_error st).summary_errors = st.summary_errors + 1 ∧
    (((record_frame (record_error ((record_frame st key t1 timeout).1))
        key t2 timeout).1).msg_count key = st.msg_count key + 2 ∧
      ((record_frame (record_error ((record_frame st key t1 timeout).1))
        key t2 timeout).1).bus_error_count = st.bus_error_count + 1) := by
  refine ⟨rfl, rfl, rfl, rfl, rfl, rfl, ?_, rfl⟩
  simp [record_frame, record_error]

/-- One received message, as the main loop dispatches on `is_error_frame`. -/
inductive Frame where
  | data (key : DeviceKey)
  | error
deriving DecidableEq

/-- One iteration of the frame-processing part of the main loop at clock
value `now`: error frames go to `record_error`, data frames to `record_frame`
(discarding the `prev_missing` signal, which only drives printing). -/
def step_frame (st : TrackerState) (f : Frame) (now timeout : ℚ) : TrackerState :=
  match f with
  | Frame.error => record_error st
  | Frame.data key => (record_frame st key now timeout).1

/-- Processing a sequence of frames, each paired with the `now` at which the
loop received it. -/
def run_frames (st : TrackerState) (evs : List (Frame × ℚ)) (timeout : ℚ) :
    TrackerState :=
  evs.foldl (fun s e => step_frame s e.1 e.2 timeout) st

/-- Every timestamp stored in `last_seen` is at most `c`. -/
def seen_bounded (st : TrackerState) (c : ℚ) : Prop :=
  ∀ k t, st.last_seen k = some t → t ≤ c

theorem step_frame_msg_count_le (st : TrackerState) (f : Frame) (now timeout : ℚ)
    (k : DeviceKey) : st.msg_count k ≤ (step_frame st f now timeout).msg_count k := by
  cases f with
  | error => exact le_refl _
  | data key =>
    by_cases h : k = key <;> simp [step_frame, record_frame, record_error, h]

theorem run_frames_msg_count_le (evs : List (Frame × ℚ)) (st : TrackerState)
    (timeout : ℚ) (k : DeviceKey) :
    st.msg_count k ≤ (run_frames st evs timeout).msg_count k := by
  induction evs generalizing st with
  | nil => exact le_refl _
  | cons e rest ih =>
    calc st.msg_count k ≤ (step_frame st e.1 e.2 timeout).msg_count k :=
          step_frame_msg_count_le st e.1 e.2 timeout k
      _ ≤ (run_frames (step_frame st e.1 e.2 timeout) rest timeout).msg_count k :=
          ih _
      _ = (run_frames st (e :: rest) timeout).msg_count k := rfl

theorem step_frame_bounded (st : TrackerState) (f : Frame) (now timeout c : ℚ)
    (hb : seen_bounded st c) (hc : c ≤ now) :
    seen_bounded (step_frame st f now timeout) now := by
  intro k t ht
  cases f with
  | error => exact le_trans (hb k t ht) hc
  | data key =>
    by_cases h : k = key
    · simp [step_frame, record_frame, h] at ht
      simp [← ht]
    · simp [step_frame, record_frame, h] at ht
      exact le_trans (hb k t ht) hc

theorem step_frame_seen_grows (st : TrackerState) (f : Frame) (now timeout c : ℚ)
    (k : DeviceKey) (t : ℚ) (hb : seen_bounded st c) (hc : c ≤ now)
    (ht : st.last_seen k = some t) :
    ∃ t', (step_frame st f now timeout).last_seen k = some t' ∧ t ≤ t' := by
  cases f with
  | error => exact ⟨t, ht, le_refl t⟩
  | data key =>
    by_cases h : k = key
    · exact ⟨now, by simp [step_frame, record_frame, h],
        le_trans (hb k t ht) hc⟩
    · exact ⟨t, by simp [step_frame, record_frame, h, ht], le_refl t⟩

theorem run_frames_seen_grows (evs : List (Frame × ℚ)) (st : TrackerState)
    (timeout c : ℚ) (k : DeviceKey) (t : ℚ) (hb : seen_bounded st c)
    (hchain : List.Chain' (· ≤ ·) (c :: evs.map Prod.snd))
    (ht : st.last_seen k = some t) :
    ∃ t', (run_frames st evs timeout).last_seen k = some t' ∧ t ≤ t' := by
  induction evs generalizing st c t with
  | nil => exact ⟨t, ht, le_refl t⟩
  | cons e rest ih =>
    have hcnow : c ≤ e.2 := by
      simp only [List.map_cons, List.chain'_cons] at hchain
      exact hchain.1
    have hchain2 : List.Chain' (· ≤ ·) (e.2 :: rest.map Prod.snd) := by
      simp only [List.map_cons, List.chain'_cons] at hchain
      exact hchain.2
    have hb2 : seen_bounded (step_frame st e.1 e.2 timeout) e.2 :=
      step_frame_bounded st e.1 e.2 timeout c hb hcnow
    obtain ⟨t1, ht1, htt1⟩ :=
      step_frame_seen_grows st e.1 e.2 timeout c k t hb hcnow ht
    obtain ⟨t', ht', ht1t'⟩ := ih (step_frame st e.1 e.2 timeout) e.2 t1 hb2 hchain2 ht1
    exact ⟨t', ht', le_trans htt1 ht1t'⟩

theorem run_frames_bounded (evs : List (Frame × ℚ)) (st : TrackerState)
    (timeout c : ℚ) (hb : seen_bounded st c)
    (hle : ∀ n ∈ evs.map Prod.snd, n ≤ c) :
    seen_bounded (run_frames st evs timeout) c := by
  induction evs generalizing st with
  | nil => exact hb
  | cons e rest ih =>
    have hec : e.2 ≤ c := hle e.2 (by simp)
    have hb2 : seen_bounded (step_frame st e.1 e.2 timeout) c := by
      intro k t ht
      cases hf : e.1 with
      | error =>
        rw [hf] at ht
        exact hb k t ht
      | data key =>
        rw [hf] at ht
        by_cases h : k = key
        · simp [step_frame, record_frame, h] at ht
          rw [← ht]
          exact hec
        · simp [step_frame, record_frame, h] at ht
          exact hb k t ht
    exact ih _ hb2 (fun n hn => hle n (by simp [hn]))

/-- C9: each data frame for a key increments `msg_count[key]` by exactly 1, so
`msg_count[key]` is non-decreasing across any sequence of frame-processing
steps; and `last_seen[key]`, once set, is non-decreasing provided the `now`
values passed to the successive steps are non-decreasing. -/
theorem C9_monotonic_counters :
    (∀ (st : TrackerState) (key : DeviceKey) (now timeout : ℚ),
      ((record_frame st key now timeout).1).msg_count key = st.msg_count key + 1) ∧
    (∀ (st : TrackerState) (evs : List (Frame × ℚ)) (timeout : ℚ) (key : DeviceKey),
      st.msg_count key ≤ (run_frames st evs timeout).msg_count key) ∧
    (∀ (evs1 evs2 : List (Frame × ℚ)) (timeout : ℚ) (key : DeviceKey) (t t' : ℚ),
      List.Sorted (· ≤ ·) ((evs1 ++ evs2).map Prod.snd) →
      (run_frames init_state evs1 timeout).last_seen key = some t →
      (run_frames init_state (evs1 ++ evs2) timeout).last_seen key = some t' →
      t ≤ t') := by
  refine ⟨?_, ?_, ?_⟩
  · intro st key now timeout
    simp [record_frame]
  · intro st evs timeout key
    exact run_frames_msg_count_le evs st timeout key
  · intro evs1 evs2 timeout key t t' hsorted h1 h2
    have happ : run_frames init_state (evs1 ++ evs2) timeout
        = run_frames (run_frames init_state evs1 timeout) evs2 timeout := by
      simp [run_frames, List.foldl_append]
    cases evs2 with
    | nil =>
      rw [show evs1 ++ ([] : List (Frame × ℚ)) = evs1 from List.append_nil evs1] at h2
      rw [h1] at h2
      exact le_of_eq (Option.some.inj h2)
    | cons e rest =>
      rw [List.map_append, List.map_cons] at hsorted
      obtain ⟨p1, p2, hrel⟩ := List.pairwise_append.mp hsorted
      have hbinit : seen_bounded init_state e.2 := by
        intro k u hu
        simp [init_state] at hu
      have hb : seen_bounded (run_frames init_state evs1 timeout) e.2 :=
        run_frames_bounded evs1 init_state timeout e.2 hbinit
          (fun n hn => hrel n hn e.2 (List.mem_cons_self _ _))
      have hchain : List.Chain' (· ≤ ·)
          (e.2 :: ((e :: rest).map Prod.snd)) := by
        rw [List.map_cons, List.chain'_cons]
        exact ⟨le_refl _, List.chain'_iff_pairwise.mpr p2⟩
      obtain ⟨t2, ht2, htt2⟩ := run_frames_seen_grows (e :: rest)
        (run_frames init_state evs1 timeout) timeout e.2 key t hb hchain h1
      rw [happ, ht2] at h2
      exact le_trans htt2 (le_of_eq (Option.some.inj h2))

/-- Witness for C9: one data frame at `now = 1` then one at `now = 2` for key
`(5, 2, 10)`; the count increments and `1 ≤ 2` for the stored timestamps. -/
theorem C9_monotonic_counters_witness :
    ((record_frame init_state (5, 2, 10) 1 1).1).msg_count (5, 2, 10)
        = init_state.msg_count (5, 2, 10) + 1 ∧ (1 : ℚ) ≤ 2 :=
  ⟨C9_monotonic_counters.1 init_state (5, 2, 10) 1 1,
    C9_monotonic_counters.2.2 [(Frame.data (5, 2, 10), 1)]
      [(Frame.data (5, 2, 10), 2)] 1 (5, 2, 10) 1 2
      (by decide) (by decide) (by decide)⟩

/-- One step of the combined-status fold in the legacy per-deviceId rollup of
`can_nt_bridge.backup.py` (main, lines 706–717): the constituent status `s`
promotes the accumulator to OK when `s == "OK"`, to STALE when `s == "STALE"`
and the accumulator is not already OK, and leaves it unchanged otherwise. -/
def combine_status (acc s : Status) : Status :=
  if s = Status.OK then Status.OK
  else if s = Status.STALE ∧ acc ≠ Status.OK then Status.STALE
  else acc

/-- Combined status of the legacy per-deviceId rollup: starting from
`"MISSING"`, fold `combine_status` over the constituent keys, each classified
by `_format_status`. -/
def legacy_status (last_seen : DeviceKey → Option ℚ) (keys : List DeviceKey)
    (now timeout : ℚ) : Status :=
  keys.foldl
    (fun acc k => combine_status acc (format_status (last_seen k) now timeout).1)
    Status.MISSING

/-- Priority-order rollup on a list of statuses: OK beats STALE beats MISSING. -/
def priority_status (statuses : List Status) : Status :=
  if statuses.any (fun s => s == Status.OK) then Status.OK
  else if statuses.any (fun s => s == Status.STALE) then Status.STALE
  else Status.MISSING

theorem combine_status_assoc :
    ∀ a s m, combine_status (combine_status a s) m
      = combine_status a (combine_status s m) := by
  intro a s m
  cases a <;> cases s <;> cases m <;> rfl

theorem combine_status_missing_right :
    ∀ acc, combine_status acc Status.MISSING = acc := by
  intro acc
  cases acc <;> rfl

theorem combine_status_missing_left :
    ∀ s, combine_status Status.MISSING s = s := by
  intro s
  cases s <;> rfl

theorem any_map_eq {α β : Type} (l : List α) (f : α → β) (p : β → Bool) :
    (l.map f).any p = l.any (fun x => p (f x)) := by
  induction l with
  | nil => rfl
  | cons x xs ih => simp [List.any_cons, ih]

theorem priority_status_cons (s : Status) (rest : List Status) :
    priority_status (s :: rest) = combine_status s (priority_status rest) := by
  cases s <;>
    by_cases h1 : rest.any (fun x => x == Status.OK) = true <;>
      by_cases h2 : rest.any (fun x => x == Status.STALE) = true <;>
        simp [priority_status, combine_status, h1, h2]

theorem legacy_status_fold (g : DeviceKey → Status) (keys : List DeviceKey) :
    ∀ acc, keys.foldl (fun a k => combine_status a (g k)) acc
      = combine_status acc (priority_status (keys.map g)) := by
  induction keys with
  | nil =>
    intro acc
    simp [priority_status, combine_status_missing_right]
  | cons k ks ih =>
    intro acc
    rw [List.foldl_cons, ih, List.map_cons, priority_status_cons,
      combine_status_assoc]

theorem perm_any_eq {α : Type} {l1 l2 : List α} (h : l1.Perm l2) (p : α → Bool) :
    l1.any p = l2.any p := by
  cases hx : l2.any p with
  | true =>
    rw [List.any_eq_true] at hx ⊢
    obtain ⟨x, hm, hp⟩ := hx
    exact ⟨x, h.mem_iff.mpr hm, hp⟩
  | false =>
    rw [List.any_eq_false] at hx ⊢
    intro x hm
    exact hx x (h.mem_iff.mp hm)

theorem legacy_status_eq_priority (last_seen : DeviceKey → Option ℚ)
    (keys : List DeviceKey) (now timeout : ℚ) :
    legacy_status last_seen keys now timeout
      = priority_status
          (keys.map (fun k => (format_status (last_seen k) now timeout).1)) := by
  rw [legacy_status, legacy_status_fold, combine_status_missing_left]

/-- C6: the legacy rollup's combined status is OK if any constituent key
classifies as OK, else STALE if any classifies as STALE, else MISSING
(priority OK > STALE > MISSING), and the result does not depend on the order
in which the constituents are folded. -/
theorem C6_legacy_status_priority (last_seen : DeviceKey → Option ℚ)
    (keys keys2 : List DeviceKey) (now timeout : ℚ) (hperm : keys.Perm keys2) :
    (legacy_status last_seen keys now timeout =
      (if keys.any
          (fun k => (format_status (last_seen k) now timeout).1 == Status.OK)
        then Status.OK
        else if keys.any
          (fun k => (format_status (last_seen k) now timeout).1 == Status.STALE)
        then Status.STALE
        else Status.MISSING)) ∧
    legacy_status last_seen keys now timeout
      = legacy_status last_seen keys2 now timeout := by
  constructor
  · rw [legacy_status_eq_priority, priority_status, any_map_eq, any_map_eq]
  · rw [legacy_status_eq_priority, legacy_status_eq_priority, priority_status,
      priority_status,
      perm_any_eq (hperm.map (fun k => (format_status (last_seen k) now timeout).1)),
      perm_any_eq (hperm.map (fun k => (format_status (last_seen k) now timeout).1))]

/-- Witness for C6: folding the two-key group in either order gives the same
combined status. -/
theorem C6_legacy_status_priority_witness :
    legacy_status (fun _ => (none : Option ℚ))
        [((1 : ℤ), (1 : ℤ), (1 : ℤ)), (2, 2, 2)] 0 0
      = legacy_status (fun _ => (none : Option ℚ))
        [((2 : ℤ), (2 : ℤ), (2 : ℤ)), (1, 1, 1)] 0 0 :=
  (C6_legacy_status_priority (fun _ => none) [(1, 1, 1), (2, 2, 2)]
    [(2, 2, 2), (1, 1, 1)] 0 0 (List.Perm.swap _ _ _)).2

/-- One device's write set in the composite publish of
`can_nt_bridge.backup.py` (main, lines 678–696): every field under
`dev/<mfg>/<type>/<id>/` is written on every publish, with `-1` as the null
sentinel for `ageSec` and `lastSeen`. -/
structure DevPublish where
  label : String
  status : Status
  ageSec : ℚ
  msgCount : ℚ
  lastSeen : ℚ
  manufacturer : ℚ
  deviceType : ℚ
  deviceId : ℚ
deriving DecidableEq

/-- The composite publish body of `can_nt_bridge.backup.py` for one device
spec with key `(manufacturer, device_type, device_id)`. -/
def publish_device (label : String) (key : DeviceKey) (ts : Option ℚ)
    (count : ℕ) (now timeout : ℚ) : DevPublish :=
  let r := format_status ts now timeout
  { label := label
    status := r.1
    ageSec := match r.2.1 with | none => -1 | some a => a
    msgCount := (count : ℚ)
    lastSeen := match ts with | none => -1 | some t => t
    manufacturer := (key.1 : ℚ)
    deviceType := (key.2.1 : ℚ)
    deviceId := (key.2.2 : ℚ) }

/-- One device's write set in the legacy publish of `can_nt_bridge.py` (main,
lines 585–602): `lastSeen` is written only when the record has a timestamp
(`none` models the key not being written on this publish); there are no
manufacturer / deviceType / deviceId keys. -/
structure DevPublishLegacy where
  lastSeen : Option ℚ
  missing : Bool
  msgCount : ℚ
  type : String
  status : Status
  ageSec : ℚ
deriving DecidableEq

/-- The legacy publish body of `can_nt_bridge.py` for one device id. -/
def publish_device_legacy (label : String) (ts : Option ℚ) (count : ℕ)
    (now timeout : ℚ) : DevPublishLegacy :=
  let r := format_status ts now timeout
  { lastSeen := ts
    missing := r.2.2
    msgCount := (count : ℚ)
    type := label
    status := r.1
    ageSec := match r.2.1 with | none => -1 | some a => a }

/-- C5 counterexample: in the publish loop of `can_nt_bridge.py`, a device
with no record gets no `lastSeen` write at all (the write is guarded by
`if ts is not None`), so the `lastSeen` key is not always written with a `-1`
sentinel. -/
theorem C5_legacy_lastseen_skipped :
    (publish_device_legacy "NEO" none 0 10 1).lastSeen = none := by
  rfl

/-- C5 amended: the composite publish of `can_nt_bridge.backup.py` pushes the
full record {label, status, ageSec, msgCount, lastSeen, manufacturer,
deviceType, deviceId} for every configured device, with `ageSec = -1` when age
is null and `lastSeen = -1` when `lastSeenAt` is null; the publish of
`can_nt_bridge.py` instead writes legacy per-id keys and writes `lastSeen`
only when the record has a timestamp. -/
theorem C5_publish_record (label : String) (key : DeviceKey) (ts : Option ℚ)
    (count : ℕ) (now timeout : ℚ) :
    (publish_device label key ts count now timeout).label = label ∧
    (publish_device label key ts count now timeout).status
      = (format_status ts now timeout).1 ∧
    (publish_device label key ts count now timeout).ageSec
      = (match (format_status ts now timeout).2.1 with
          | none => -1 | some a => a) ∧
    (publish_device label key ts count now timeout).msgCount = (count : ℚ) ∧
    (publish_device label key ts count now timeout).lastSeen
      = (match ts with | none => -1 | some t => t) ∧
    (publish_device label key ts count now timeout).manufacturer = (key.1 : ℚ) ∧
    (publish_device label key ts count now timeout).deviceType = (key.2.1 : ℚ) ∧
    (publish_device label key ts count now timeout).deviceId = (key.2.2 : ℚ) ∧
    (publish_device_legacy label ts count now timeout).lastSeen = ts ∧
    (publish_device_legacy label none count now timeout).lastSeen = none := by
  exact ⟨rfl, rfl, rfl, rfl, rfl, rfl, rfl, rfl, rfl, rfl⟩
